import Mathlib

/-!
Shallow embedding of the task store, reminder checker and command
interpreter of the Personal-virtual-assistant repository
(`Functions/task_manager.py` and `main.py`), with theorems checking the
claims of the specification against the code.

Timestamps are modelled as natural numbers (`datetime` values compare by
order only in the embedded code paths); the JSON file on disk is modelled
as a `FileState`: missing, malformed, or a well-formed list of records.
Each store operation returns, besides its Python return value, the new
in-memory collection and a `Bool` recording whether `save_*` (a file
write) was performed.
-/

namespace VA

/-- Python substring test `needle in hay`, on lists of characters:
`startsWithL n h` is true iff `n` is an initial segment of `h`. -/
def startsWithL : List Char → List Char → Bool
  | [], _ => true
  | _ :: _, [] => false
  | a :: as, b :: bs => a == b && startsWithL as bs

/-- `containsSubL n h` is true iff `n` occurs contiguously inside `h`
(Python `n in h` for strings). -/
def containsSubL : List Char → List Char → Bool
  | n, [] => startsWithL n []
  | n, c :: cs => startsWithL n (c :: cs) || containsSubL n cs

/-- Python `needle in hay` on strings. -/
def strContains (hay needle : String) : Bool :=
  containsSubL needle.data hay.data

/-- Python `s.lower()`, modelled with `Char.toLower`. -/
def strLower (s : String) : String :=
  ⟨s.data.map Char.toLower⟩

/-- State of a JSON store file on disk: absent, present but not valid
JSON, or a well-formed array of records. -/
inductive FileState (α : Type) : Type
  | missing : FileState α
  | malformed (raw : String) : FileState α
  | wellFormed (records : List α) : FileState α

/-- A todo record (`task_manager.py` lines 35–41); `completed_date` is
absent until `complete_todo` sets it. -/
structure Todo where
  id : Nat
  task : String
  priority : String
  created : Nat
  completed : Bool
  completed_date : Option Nat
deriving DecidableEq, Repr

/-- `get_todos()`: `[]` when the file is missing; `try: json.load`
returning `[]` on `JSONDecodeError` (lines 16–25). -/
def get_todos (fs : FileState Todo) : List Todo :=
  match fs with
  | .missing => []
  | .malformed _ => []
  | .wellFormed records => records

/-- The record built by `add_todo` (lines 35–41). -/
def newTodo (now : Nat) (task priority : String) (todos : List Todo) : Todo :=
  { id := todos.length + 1, task := task, priority := priority,
    created := now, completed := false, completed_date := none }

/-- `add_todo(task, priority)` (lines 32–44): appends a record with
`id = len(todos)+1` and saves. Returns (message, new collection, saved). -/
def add_todo (now : Nat) (task priority : String) (todos : List Todo) :
    String × List Todo × Bool :=
  (s!"Added task: {task}", todos ++ [newTodo now task priority todos], true)

/-- The scan loop of `complete_todo` (lines 49–54): `some` of the updated
collection when a record with the id is found (first match mutated),
`none` when the loop falls through. -/
def completeScan (now tid : Nat) : List Todo → Option (List Todo)
  | [] => none
  | t :: ts =>
    if t.id = tid then
      some ({ t with completed := true, completed_date := some now } :: ts)
    else
      (completeScan now tid ts).map (t :: ·)

/-- `complete_todo(task_id)` (lines 46–55): linear scan; on a match sets
the flag and timestamp and saves; otherwise returns the not-found message
without saving. Returns (message, new collection, saved). -/
def complete_todo (now tid : Nat) (todos : List Todo) :
    String × List Todo × Bool :=
  match completeScan now tid todos with
  | some todos' => (s!"Marked task {tid} as completed", todos', true)
  | none => (s!"Task {tid} not found", todos, false)

/-- The `active_todos` filter of `list_todos` (line 63):
`[t for t in todos if not t.get("completed") or show_completed]`. -/
def active_todos (show_completed : Bool) (todos : List Todo) : List Todo :=
  todos.filter (fun t => !t.completed || show_completed)

/-- One rendered line of `list_todos` (lines 69–70). -/
def todoLine (t : Todo) : String :=
  let st : String := if t.completed then "✓" else "□"
  let i := t.id
  let task := t.task
  let p := t.priority
  s!"{i}. [{st}] {task} (Priority: {p})"

/-- `list_todos(show_completed)` (lines 57–72). -/
def list_todos (show_completed : Bool) (todos : List Todo) : String :=
  if todos.isEmpty then "No tasks found"
  else
    let act := active_todos show_completed todos
    if act.isEmpty then "No active tasks found"
    else String.intercalate "\n" (act.map todoLine)

/-- A reminder record (`task_manager.py` lines 103–109). -/
structure Reminder where
  id : Nat
  text : String
  time : Nat
  created : Nat
  notified : Bool
deriving DecidableEq, Repr

/-- `get_reminders()` (lines 75–84): `[]` on a missing file or a
`JSONDecodeError`. -/
def get_reminders (fs : FileState Reminder) : List Reminder :=
  match fs with
  | .missing => []
  | .malformed _ => []
  | .wellFormed records => records

/-- `add_reminder(text, remind_time)` (lines 91–112). The two-stage
`datetime` parse (`fromisoformat`, then `strptime "%Y-%m-%d %H:%M"`) is a
library call modelled by its outcome `parsed : Option Nat`: `none` means
both parses raised `ValueError`. Returns (message, new collection, saved). -/
def add_reminder (now : Nat) (text : String) (parsed : Option Nat)
    (reminders : List Reminder) : String × List Reminder × Bool :=
  match parsed with
  | none => ("Invalid date format. Please use YYYY-MM-DD HH:MM format.",
             reminders, false)
  | some t =>
    let r : Reminder := { id := reminders.length + 1, text := text,
                          time := t, created := now, notified := false }
    (s!"Reminder set for {t}: {text}", reminders ++ [r], true)

/-- The in-place mutation performed on a due reminder (line 124). -/
def notify (r : Reminder) : Reminder :=
  { r with notified := true }

/-- The loop of `check_due_reminders` (lines 120–125): returns the
mutated collection and the accumulated due list, scanning in file order. -/
def checkLoop (now : Nat) : List Reminder → List Reminder × List Reminder
  | [] => ([], [])
  | r :: rs =>
    if r.notified = false ∧ r.time ≤ now then
      (notify r :: (checkLoop now rs).1, notify r :: (checkLoop now rs).2)
    else
      (r :: (checkLoop now rs).1, (checkLoop now rs).2)

/-- `check_due_reminders()` (lines 114–130): collection after the scan,
the due list, and whether `save_reminders` ran (`if due_reminders:`). -/
def check_due_reminders (now : Nat) (reminders : List Reminder) :
    List Reminder × List Reminder × Bool :=
  let p := checkLoop now reminders
  (p.1, p.2, !p.2.isEmpty)

/-- A note record (`task_manager.py` lines 152–158). -/
structure Note where
  id : Nat
  title : String
  content : String
  created : Nat
  updated : Nat
deriving DecidableEq, Repr

/-- `get_notes()` (lines 133–142): `[]` on a missing file or a
`JSONDecodeError`. -/
def get_notes (fs : FileState Note) : List Note :=
  match fs with
  | .missing => []
  | .malformed _ => []
  | .wellFormed records => records

/-- The membership test of the comprehension in `find_note` (lines 168–170). -/
def noteMatches (ql : String) (n : Note) : Bool :=
  strContains (strLower n.title) ql || strContains (strLower n.content) ql

/-- `find_note(query)` (lines 163–170): lowercases the query, keeps the
notes whose lowered title or content contains it. -/
def find_note (query : String) (notes : List Note) : List Note :=
  let ql := strLower query
  notes.filter (noteMatches ql)

/-- One handler per branch of the `if/elif` chain of `handle_command`
(`main.py` lines 631–1021), plus the final `else` fallback (line 1020). -/
inductive Handler : Type
  | greet | openNotepad | openDiscord | openCmd | openCamera
  | openCalculator | screenshot | systemInfo | battery | lockScreen
  | shutdownCmd | restartCmd | cancelShutdown | ipAddress | wikipedia
  | youtube | googleSearch | whatsapp | email | joke | advice | movies
  | news | weather | addTask | completeTask | listTasks | setReminder
  | takeNote | findNote | playMusic | pauseMusic | resumeMusic
  | stopMusic | quote | riddle | tellMeAJoke | rockPaperScissors
  | translate | whatLanguage | speakThis | timeNow | dateToday | thanks
  | whoAreYou | fallback
deriving DecidableEq, Repr

/-- The rule selection of `handle_command` (`main.py` lines 631–1021):
the `if/elif` chain in source order, each test a Python substring check
on the (already lowercased) query. -/
def dispatch (q : String) : Handler :=
  if strContains q "hello" || strContains q "hi" then .greet
  else if strContains q "open notepad" then .openNotepad
  else if strContains q "open discord" then .openDiscord
  else if strContains q "open command prompt" || strContains q "open cmd" then .openCmd
  else if strContains q "open camera" then .openCamera
  else if strContains q "open calculator" then .openCalculator
  else if strContains q "take screenshot" then .screenshot
  else if strContains q "system info" || strContains q "system information" then .systemInfo
  else if strContains q "battery" then .battery
  else if strContains q "lock" && (strContains q "computer" || strContains q "screen" || strContains q "system") then .lockScreen
  else if (strContains q "shutdown" || strContains q "turn off") && strContains q "computer" then .shutdownCmd
  else if (strContains q "restart" || strContains q "reboot") && strContains q "computer" then .restartCmd
  else if strContains q "cancel shutdown" || strContains q "cancel restart" then .cancelShutdown
  else if strContains q "ip address" then .ipAddress
  else if strContains q "wikipedia" then .wikipedia
  else if strContains q "youtube" then .youtube
  else if strContains q "search on google" || strContains q "google" then .googleSearch
  else if strContains q "send whatsapp message" || strContains q "whatsapp" then .whatsapp
  else if strContains q "send an email" || strContains q "send email" then .email
  else if strContains q "joke" then .joke
  else if strContains q "advice" then .advice
  else if strContains q "trending movies" || strContains q "movie" then .movies
  else if strContains q "news" then .news
  else if strContains q "weather" then .weather
  else if strContains q "add task" || strContains q "add to do" then .addTask
  else if strContains q "complete task" || strContains q "mark task as done" then .completeTask
  else if strContains q "list tasks" || strContains q "show tasks" || strContains q "show to do list" then .listTasks
  else if strContains q "set reminder" || strContains q "remind me" then .setReminder
  else if strContains q "take note" || strContains q "make note" then .takeNote
  else if strContains q "find note" then .findNote
  else if strContains q "play music" || strContains q "play song" then .playMusic
  else if strContains q "pause music" || strContains q "pause song" then .pauseMusic
  else if strContains q "resume music" || strContains q "resume song" then .resumeMusic
  else if strContains q "stop music" || strContains q "stop song" then .stopMusic
  else if strContains q "quote" || strContains q "inspiration" then .quote
  else if strContains q "riddle" then .riddle
  else if strContains q "tell me a joke" then .tellMeAJoke
  else if strContains q "rock paper scissors" then .rockPaperScissors
  else if strContains q "translate" then .translate
  else if strContains q "what language is" then .whatLanguage
  else if strContains q "speak this" || strContains q "say this" then .speakThis
  else if strContains q "time" then .timeNow
  else if strContains q "date" then .dateToday
  else if strContains q "thank you" || strContains q "thanks" then .thanks
  else if strContains q "who are you" || strContains q "what can you do" then .whoAreYou
  else .fallback

/-- The apology spoken by the `except` clause of `handle_command`
(`main.py` line 1025). -/
def apology : String :=
  "Sorry, I encountered an error while processing your request. Please try again."

/-- `handle_command(query)` (`main.py` lines 627–1025) as it executes in
the exception monad: the body of the selected handler — an arbitrary fallible
computation `env` producing the spoken messages or raising — runs inside
the `try`; the `except Exception` clause logs and converts any raise into
the apology message. -/
def handle_command (env : Handler → Except String (List String))
    (q : String) : Except String (List String) :=
  match env (dispatch q) with
  | .ok msgs => .ok msgs
  | .error _ => .ok [apology]

/-! ### Helper lemmas -/

theorem startsWithL_iff : ∀ (n h : List Char),
    startsWithL n h = true ↔ ∃ t, h = n ++ t
  | [], h => by simp [startsWithL]
  | _ :: _, [] => by simp [startsWithL]
  | a :: as, b :: bs => by
    simp only [startsWithL, Bool.and_eq_true, beq_iff_eq, startsWithL_iff as bs]
    constructor
    · rintro ⟨rfl, t, rfl⟩
      exact ⟨t, rfl⟩
    · rintro ⟨t, he⟩
      injection he with h1 h2
      exact ⟨h1.symm, t, h2⟩

theorem containsSubL_iff : ∀ (n h : List Char),
    containsSubL n h = true ↔ ∃ p t, h = p ++ (n ++ t)
  | n, [] => by
    simp only [containsSubL, startsWithL_iff]
    constructor
    · rintro ⟨t, ht⟩
      exact ⟨[], t, ht⟩
    · rintro ⟨p, t, ht⟩
      obtain ⟨rfl, h2⟩ := List.append_eq_nil.mp ht.symm
      exact ⟨t, ht⟩
  | n, c :: cs => by
    simp only [containsSubL, Bool.or_eq_true, startsWithL_iff,
      containsSubL_iff n cs]
    constructor
    · rintro (⟨t, ht⟩ | ⟨p, t, ht⟩)
      · exact ⟨[], t, by simpa using ht⟩
      · exact ⟨c :: p, t, by simp [ht]⟩
    · rintro ⟨p, t, ht⟩
      cases p with
      | nil => exact Or.inl ⟨t, by simpa using ht⟩
      | cons x xs =>
        injection ht with h1 h2
        exact Or.inr ⟨xs, t, h2⟩

theorem containsSubL_trans {n m h : List Char}
    (hnm : containsSubL n m = true) (hmh : containsSubL m h = true) :
    containsSubL n h = true := by
  obtain ⟨p1, t1, rfl⟩ := (containsSubL_iff n m).mp hnm
  obtain ⟨p2, t2, rfl⟩ := (containsSubL_iff _ _).mp hmh
  exact (containsSubL_iff n _).mpr
    ⟨p2 ++ p1, t1 ++ t2, by simp [List.append_assoc]⟩

theorem notify_id (r : Reminder) : (notify r).id = r.id := rfl

theorem checkLoop_fst_map_id (now : Nat) :
    ∀ l : List Reminder,
      ((checkLoop now l).1).map Reminder.id = l.map Reminder.id
  | [] => rfl
  | r :: rs => by
    by_cases h : r.notified = false ∧ r.time ≤ now
    · simp [checkLoop, h, notify_id, checkLoop_fst_map_id now rs, notify]
    · simp [checkLoop, h, checkLoop_fst_map_id now rs]

theorem mem_checkLoop_of_due (now : Nat) :
    ∀ {l : List Reminder} {r : Reminder}, r ∈ l → r.notified = false →
      r.time ≤ now →
      notify r ∈ (checkLoop now l).2 ∧ notify r ∈ (checkLoop now l).1 := by
  intro l
  induction l with
  | nil => intro r hr _ _; cases hr
  | cons a as ih =>
    intro r hr hn ht
    rcases List.mem_cons.mp hr with rfl | hmem
    · have hc : r.notified = false ∧ r.time ≤ now := ⟨hn, ht⟩
      simp [checkLoop, hc]
    · obtain ⟨h2, h1⟩ := ih hmem hn ht
      by_cases hc : a.notified = false ∧ a.time ≤ now
      · simp only [checkLoop, if_pos hc]
        exact ⟨List.mem_cons_of_mem _ h2, List.mem_cons_of_mem _ h1⟩
      · simp only [checkLoop, if_neg hc]
        exact ⟨h2, List.mem_cons_of_mem _ h1⟩

theorem checkLoop_due_source (now : Nat) :
    ∀ {l : List Reminder} {s : Reminder}, s ∈ (checkLoop now l).2 →
      ∃ r, r ∈ l ∧ r.notified = false ∧ r.time ≤ now ∧ s = notify r := by
  intro l
  induction l with
  | nil => intro s hs; simp [checkLoop] at hs
  | cons a as ih =>
    intro s hs
    by_cases hc : a.notified = false ∧ a.time ≤ now
    · simp only [checkLoop, if_pos hc] at hs
      rcases List.mem_cons.mp hs with rfl | hmem
      · exact ⟨a, List.mem_cons_self a as, hc.1, hc.2, rfl⟩
      · obtain ⟨r, hr, hn, ht, he⟩ := ih hmem
        exact ⟨r, List.mem_cons_of_mem _ hr, hn, ht, he⟩
    · simp only [checkLoop, if_neg hc] at hs
      obtain ⟨r, hr, hn, ht, he⟩ := ih hs
      exact ⟨r, List.mem_cons_of_mem _ hr, hn, ht, he⟩

theorem checkLoop_due_nil_iff (now : Nat) :
    ∀ l : List Reminder, (checkLoop now l).2 = [] ↔ (checkLoop now l).1 = l
  | [] => by simp [checkLoop]
  | a :: as => by
    by_cases hc : a.notified = false ∧ a.time ≤ now
    · simp only [checkLoop, if_pos hc]
      constructor
      · intro habs; cases habs
      · intro habs
        injection habs with h1 _
        have hno := congrArg Reminder.notified h1
        simp [notify, hc.1] at hno
    · simp only [checkLoop, if_neg hc, List.cons.injEq, true_and]
      exact checkLoop_due_nil_iff now as

theorem completeScan_map_id (now tid : Nat) :
    ∀ {l l' : List Todo}, completeScan now tid l = some l' →
      l'.map Todo.id = l.map Todo.id := by
  intro l
  induction l with
  | nil => intro l' h; simp [completeScan] at h
  | cons t ts ih =>
    intro l' h
    by_cases hid : t.id = tid
    · simp only [completeScan, if_pos hid, Option.some.injEq] at h
      subst h
      simp
    · simp only [completeScan, if_neg hid] at h
      cases hscan : completeScan now tid ts with
      | none => rw [hscan] at h; simp at h
      | some ts' =>
        rw [hscan] at h
        simp only [Option.map_some', Option.some.injEq] at h
        subst h
        simp [ih hscan]

theorem complete_todo_map_id (now tid : Nat) (l : List Todo) :
    ((complete_todo now tid l).2.1).map Todo.id = l.map Todo.id := by
  cases h : completeScan now tid l with
  | none => simp [complete_todo, h]
  | some l' => simp [complete_todo, h, completeScan_map_id now tid h]

theorem completeScan_of_absent (now tid : Nat) :
    ∀ {l : List Todo}, (∀ t ∈ l, t.id ≠ tid) →
      completeScan now tid l = none := by
  intro l
  induction l with
  | nil => intro _; rfl
  | cons t ts ih =>
    intro h
    have hid : t.id ≠ tid := h t (List.mem_cons_self t ts)
    have hts := ih (fun u hu => h u (List.mem_cons_of_mem _ hu))
    simp [completeScan, hid, hts]

/-- The store-mutating operations available on the todo file:
`add_todo` and `complete_todo`. -/
inductive TodoOp : Type
  | addOp (now : Nat) (task priority : String)
  | completeOp (now tid : Nat)

/-- The collection left in the file by one operation. -/
def applyTodoOp (todos : List Todo) : TodoOp → List Todo
  | .addOp now task priority => (add_todo now task priority todos).2.1
  | .completeOp now tid => (complete_todo now tid todos).2.1

/-- Todo collections reachable from the empty store by `add_todo` and
`complete_todo` calls. -/
inductive TodoReachable : List Todo → Prop
  | empty : TodoReachable []
  | step {l : List Todo} (op : TodoOp) :
      TodoReachable l → TodoReachable (applyTodoOp l op)

theorem range'_one_snoc : ∀ (s n : Nat),
    List.range' s (n + 1) = List.range' s n ++ [s + n]
  | _, 0 => by simp [List.range']
  | s, n + 1 => by
    have h1 : List.range' s (n + 2) = s :: List.range' (s + 1) (n + 1) := rfl
    have h2 : List.range' s (n + 1) = s :: List.range' (s + 1) n := rfl
    rw [h1, range'_one_snoc (s + 1) n, h2]
    simp only [List.cons_append, List.cons.injEq, true_and]
    have : s + 1 + n = s + (n + 1) := by omega
    rw [this]

theorem reachable_ids {l : List Todo} (h : TodoReachable l) :
    l.map Todo.id = List.range' 1 l.length := by
  induction h with
  | empty => rfl
  | @step l op _ ih =>
    cases op with
    | addOp now task priority =>
      simp only [applyTodoOp]
      simp only [add_todo, List.map_append, List.length_append,
        List.map_cons, List.map_nil, List.length_cons, List.length_nil]
      rw [ih, range'_one_snoc 1 l.length]
      simp [newTodo, Nat.add_comm]
    | completeOp now tid =>
      simp only [applyTodoOp]
      have hm := complete_todo_map_id now tid l
      have hlen : (complete_todo now tid l).2.1.length = l.length := by
        have := congrArg List.length hm
        simpa using this
      rw [hm, hlen, ih]

/-! ### Claim theorems -/

/-- C3: for every stored todo collection and every task id not present in
it, `complete_todo` returns the not-found message as a normal result, the
collection is unchanged, and no file write is performed. -/
theorem complete_todo_not_found (now tid : Nat) (l : List Todo)
    (h : ∀ t ∈ l, t.id ≠ tid) :
    complete_todo now tid l = (s!"Task {tid} not found", l, false) := by
  simp [complete_todo, completeScan_of_absent now tid h]

/-- Witness for C3 at a concrete store and a missing id. -/
theorem complete_todo_not_found_witness :
    complete_todo 7 2 [⟨1, "buy milk", "medium", 0, false, none⟩] =
      ("Task 2 not found", [⟨1, "buy milk", "medium", 0, false, none⟩],
        false) := by
  have h := complete_todo_not_found 7 2
    [⟨1, "buy milk", "medium", 0, false, none⟩] (by decide)
  simpa using h

/-- C4: for each of the three stores, loading from a missing file or a
malformed file yields the empty collection rather than an error. -/
theorem load_soft_fail :
    (get_todos FileState.missing = [] ∧
      ∀ s, get_todos (FileState.malformed s) = []) ∧
    (get_reminders FileState.missing = [] ∧
      ∀ s, get_reminders (FileState.malformed s) = []) ∧
    (get_notes FileState.missing = [] ∧
      ∀ s, get_notes (FileState.malformed s) = []) :=
  ⟨⟨rfl, fun _ => rfl⟩, ⟨rfl, fun _ => rfl⟩, ⟨rfl, fun _ => rfl⟩⟩

/-- C5: `find_note` returns exactly the notes whose lowered title or
content contains the lowered query — a sublist of the collection (file
order preserved), and membership holds iff the note matches. -/
theorem find_note_exact (query : String) (notes : List Note) :
    List.Sublist (find_note query notes) notes ∧
    ∀ n, n ∈ find_note query notes ↔
      n ∈ notes ∧ noteMatches (strLower query) n = true := by
  constructor
  · simp only [find_note]
    exact List.filter_sublist notes
  · intro n
    simp [find_note, List.mem_filter]

/-- C7: the query "search on google" is routed to the Google-search
handler, not to any other branch. -/
theorem dispatch_search_on_google :
    dispatch "search on google" = Handler.googleSearch := by decide

/-- C9: `check_due_reminders` writes the reminder file iff the stored
collection changed during the check; with nothing both unnotified and
due, no write happens and the collection is unchanged. -/
theorem check_due_persist_iff (now : Nat) (l : List Reminder) :
    (check_due_reminders now l).2.2 = true ↔
      (check_due_reminders now l).1 ≠ l := by
  have hiff := checkLoop_due_nil_iff now l
  show (!(checkLoop now l).2.isEmpty) = true ↔ (checkLoop now l).1 ≠ l
  constructor
  · intro hs heq
    rw [hiff.mpr heq] at hs
    simp at hs
  · intro hne
    cases hd : (checkLoop now l).2 with
    | nil => exact absurd (hiff.mp hd) hne
    | cons a as => simp

/-- C10: when the reminder time string parses neither as ISO nor as
"YYYY-MM-DD HH:MM", `add_reminder` returns the invalid-format message,
appends nothing, and performs no file write. -/
theorem add_reminder_invalid (now : Nat) (text : String)
    (parsed : Option Nat) (l : List Reminder) (h : parsed = none) :
    add_reminder now text parsed l =
      ("Invalid date format. Please use YYYY-MM-DD HH:MM format.", l,
        false) := by
  subst h
  rfl

/-- Witness for C10 at a concrete store and a failed parse. -/
theorem add_reminder_invalid_witness :
    add_reminder 0 "call mom" none [] =
      ("Invalid date format. Please use YYYY-MM-DD HH:MM format.", [],
        false) :=
  add_reminder_invalid 0 "call mom" none [] rfl

/-- C6: in every todo store reachable from the empty store by `add_todo`
and `complete_todo`, the ids are exactly the sequence 1, 2, 3, ... (hence
unique), and after `add_todo` the new task appears, with id `count+1`, in
the not-completed `list_todos` view. -/
theorem todo_ids_sequential (l : List Todo) (h : TodoReachable l) :
    l.map Todo.id = List.range' 1 l.length ∧
    (l.map Todo.id).Nodup ∧
    ∀ now task priority,
      (newTodo now task priority l).id = l.length + 1 ∧
      newTodo now task priority l ∈
        active_todos false (add_todo now task priority l).2.1 ∧
      todoLine (newTodo now task priority l) ∈
        (active_todos false (add_todo now task priority l).2.1).map
          todoLine := by
  have hids := reachable_ids h
  refine ⟨hids, ?_, ?_⟩
  · rw [hids]
    exact List.nodup_range' 1 l.length
  · intro now task priority
    have hmem : newTodo now task priority l ∈
        (add_todo now task priority l).2.1 := by
      simp [add_todo]
    have hact : newTodo now task priority l ∈
        active_todos false (add_todo now task priority l).2.1 := by
      refine List.mem_filter.mpr ⟨hmem, ?_⟩
      simp [newTodo]
    exact ⟨rfl, hact, List.mem_map_of_mem todoLine hact⟩

/-- Witness for C6 at the store built by one `add_todo` on the empty
store. -/
theorem todo_ids_sequential_witness :
    ([⟨1, "a", "medium", 0, false, none⟩] : List Todo).map Todo.id =
      List.range' 1 1 :=
  (todo_ids_sequential _
    (TodoReachable.step (TodoOp.addOp 0 "a" "medium")
      TodoReachable.empty)).1

/-- C1: a reminder that is unnotified and due is put in the due list with
its notified flag set to true, the stored collection records the flag,
and no later check on the resulting store reports a reminder with its id
again — at most one notification per reminder. Ids are assumed distinct,
as `add_reminder` assigns them. -/
theorem check_due_at_most_once (now : Nat) (l : List Reminder)
    (r : Reminder) (hid : (l.map Reminder.id).Nodup) (hr : r ∈ l)
    (hn : r.notified = false) (ht : r.time ≤ now) :
    notify r ∈ (check_due_reminders now l).2.1 ∧
    (notify r).notified = true ∧
    notify r ∈ (check_due_reminders now l).1 ∧
    ∀ now2 s,
      s ∈ (check_due_reminders now2 (check_due_reminders now l).1).2.1 →
      s.id ≠ r.id := by
  obtain ⟨hdue, hupd⟩ := mem_checkLoop_of_due now hr hn ht
  refine ⟨hdue, rfl, hupd, ?_⟩
  intro now2 s hs hsid
  obtain ⟨r0, hr0mem, hr0n, _, rfl⟩ := checkLoop_due_source now2 hs
  have hnodup : (((checkLoop now l).1).map Reminder.id).Nodup := by
    rw [checkLoop_fst_map_id]
    exact hid
  have heq : r0 = notify r := by
    apply List.inj_on_of_nodup_map hnodup hr0mem hupd
    rw [notify_id]
    exact hsid
  rw [heq] at hr0n
  simp [notify] at hr0n

/-- Witness for C1 at a one-reminder store whose reminder is due. -/
theorem check_due_at_most_once_witness :
    notify ⟨1, "standup", 3, 0, false⟩ ∈
      (check_due_reminders 5 [⟨1, "standup", 3, 0, false⟩]).2.1 :=
  (check_due_at_most_once 5 [⟨1, "standup", 3, 0, false⟩]
    ⟨1, "standup", 3, 0, false⟩ (by decide)
    (List.mem_singleton_self _) rfl (by decide)).1

/-- C8: whatever the selected handler does — including raising — the
top-level try/except of `handle_command` yields a normal result; a raise
is converted into the apology message, so the listening loop that calls
`handle_command` never sees an exception. -/
theorem handle_command_never_raises
    (env : Handler → Except String (List String)) (q : String) :
    (∃ msgs, handle_command env q = Except.ok msgs) ∧
    ∀ e, env (dispatch q) = Except.error e →
      handle_command env q = Except.ok [apology] := by
  constructor
  · cases h : env (dispatch q) with
    | ok msgs => exact ⟨msgs, by simp [handle_command, h]⟩
    | error e => exact ⟨[apology], by simp [handle_command, h]⟩
  · intro e he
    simp [handle_command, he]

/-- Witness for C8 with a handler environment that always raises. -/
theorem handle_command_never_raises_witness :
    handle_command (fun _ => Except.error "boom") "hello" =
      Except.ok [apology] :=
  (handle_command_never_raises (fun _ => Except.error "boom") "hello").2
    "boom" rfl

/-- C2 (refuted by the code): the rule table does not always place more
specific patterns first. The query "tell me a joke" fires the earlier
generic "joke" rule (`main.py` line 766), and the tell-me-a-joke rule
(line 921) can fire for no query at all: any query containing
"tell me a joke" also contains "joke", so the generic rule shadows it. -/
theorem dispatch_tell_me_a_joke_shadowed :
    dispatch "tell me a joke" = Handler.joke ∧
    ∀ q, (dispatch q == Handler.tellMeAJoke) = false := by
  constructor
  · decide
  · intro q
    rw [beq_eq_false_iff_ne]
    intro h
    have hkey : strContains q "tell me a joke" = true →
        strContains q "joke" = true := fun hc =>
      containsSubL_trans (by decide) hc
    unfold dispatch at h
    by_cases h1 : (strContains q "hello" || strContains q "hi") = true
    · rw [if_pos h1] at h
      exact absurd h (by decide)
    rw [if_neg h1] at h
    by_cases h2 : strContains q "open notepad" = true
    · rw [if_pos h2] at h
      exact absurd h (by decide)
    rw [if_neg h2] at h
    by_cases h3 : strContains q "open discord" = true
    · rw [if_pos h3] at h
      exact absurd h (by decide)
    rw [if_neg h3] at h
    by_cases h4 : (strContains q "open command prompt" || strContains q "open cmd") = true
    · rw [if_pos h4] at h
      exact absurd h (by decide)
    rw [if_neg h4] at h
    by_cases h5 : strContains q "open camera" = true
    · rw [if_pos h5] at h
      exact absurd h (by decide)
    rw [if_neg h5] at h
    by_cases h6 : strContains q "open calculator" = true
    · rw [if_pos h6] at h
      exact absurd h (by decide)
    rw [if_neg h6] at h
    by_cases h7 : strContains q "take screenshot" = true
    · rw [if_pos h7] at h
      exact absurd h (by decide)
    rw [if_neg h7] at h
    by_cases h8 : (strContains q "system info" || strContains q "system information") = true
    · rw [if_pos h8] at h
      exact absurd h (by decide)
    rw [if_neg h8] at h
    by_cases h9 : strContains q "battery" = true
    · rw [if_pos h9] at h
      exact absurd h (by decide)
    rw [if_neg h9] at h
    by_cases h10 : (strContains q "lock" && (strContains q "computer" || strContains q "screen" || strContains q "system")) = true
    · rw [if_pos h10] at h
      exact absurd h (by decide)
    rw [if_neg h10] at h
    by_cases h11 : ((strContains q "shutdown" || strContains q "turn off") && strContains q "computer") = true
    · rw [if_pos h11] at h
      exact absurd h (by decide)
    rw [if_neg h11] at h
    by_cases h12 : ((strContains q "restart" || strContains q "reboot") && strContains q "computer") = true
    · rw [if_pos h12] at h
      exact absurd h (by decide)
    rw [if_neg h12] at h
    by_cases h13 : (strContains q "cancel shutdown" || strContains q "cancel restart") = true
    · rw [if_pos h13] at h
      exact absurd h (by decide)
    rw [if_neg h13] at h
    by_cases h14 : strContains q "ip address" = true
    · rw [if_pos h14] at h
      exact absurd h (by decide)
    rw [if_neg h14] at h
    by_cases h15 : strContains q "wikipedia" = true
    · rw [if_pos h15] at h
      exact absurd h (by decide)
    rw [if_neg h15] at h
    by_cases h16 : strContains q "youtube" = true
    · rw [if_pos h16] at h
      exact absurd h (by decide)
    rw [if_neg h16] at h
    by_cases h17 : (strContains q "search on google" || strContains q "google") = true
    · rw [if_pos h17] at h
      exact absurd h (by decide)
    rw [if_neg h17] at h
    by_cases h18 : (strContains q "send whatsapp message" || strContains q "whatsapp") = true
    · rw [if_pos h18] at h
      exact absurd h (by decide)
    rw [if_neg h18] at h
    by_cases h19 : (strContains q "send an email" || strContains q "send email") = true
    · rw [if_pos h19] at h
      exact absurd h (by decide)
    rw [if_neg h19] at h
    by_cases h20 : strContains q "joke" = true
    · rw [if_pos h20] at h
      exact absurd h (by decide)
    rw [if_neg h20] at h
    by_cases h21 : strContains q "advice" = true
    · rw [if_pos h21] at h
      exact absurd h (by decide)
    rw [if_neg h21] at h
    by_cases h22 : (strContains q "trending movies" || strContains q "movie") = true
    · rw [if_pos h22] at h
      exact absurd h (by decide)
    rw [if_neg h22] at h
    by_cases h23 : strContains q "news" = true
    · rw [if_pos h23] at h
      exact absurd h (by decide)
    rw [if_neg h23] at h
    by_cases h24 : strContains q "weather" = true
    · rw [if_pos h24] at h
      exact absurd h (by decide)
    rw [if_neg h24] at h
    by_cases h25 : (strContains q "add task" || strContains q "add to do") = true
    · rw [if_pos h25] at h
      exact absurd h (by decide)
    rw [if_neg h25] at h
    by_cases h26 : (strContains q "complete task" || strContains q "mark task as done") = true
    · rw [if_pos h26] at h
      exact absurd h (by decide)
    rw [if_neg h26] at h
    by_cases h27 : (strContains q "list tasks" || strContains q "show tasks" || strContains q "show to do list") = true
    · rw [if_pos h27] at h
      exact absurd h (by decide)
    rw [if_neg h27] at h
    by_cases h28 : (strContains q "set reminder" || strContains q "remind me") = true
    · rw [if_pos h28] at h
      exact absurd h (by decide)
    rw [if_neg h28] at h
    by_cases h29 : (strContains q "take note" || strContains q "make note") = true
    · rw [if_pos h29] at h
      exact absurd h (by decide)
    rw [if_neg h29] at h
    by_cases h30 : strContains q "find note" = true
    · rw [if_pos h30] at h
      exact absurd h (by decide)
    rw [if_neg h30] at h
    by_cases h31 : (strContains q "play music" || strContains q "play song") = true
    · rw [if_pos h31] at h
      exact absurd h (by decide)
    rw [if_neg h31] at h
    by_cases h32 : (strContains q "pause music" || strContains q "pause song") = true
    · rw [if_pos h32] at h
      exact absurd h (by decide)
    rw [if_neg h32] at h
    by_cases h33 : (strContains q "resume music" || strContains q "resume song") = true
    · rw [if_pos h33] at h
      exact absurd h (by decide)
    rw [if_neg h33] at h
    by_cases h34 : (strContains q "stop music" || strContains q "stop song") = true
    · rw [if_pos h34] at h
      exact absurd h (by decide)
    rw [if_neg h34] at h
    by_cases h35 : (strContains q "quote" || strContains q "inspiration") = true
    · rw [if_pos h35] at h
      exact absurd h (by decide)
    rw [if_neg h35] at h
    by_cases h36 : strContains q "riddle" = true
    · rw [if_pos h36] at h
      exact absurd h (by decide)
    rw [if_neg h36] at h
    by_cases h37 : strContains q "tell me a joke" = true
    · exact h20 (hkey h37)
    rw [if_neg h37] at h
    by_cases h38 : strContains q "rock paper scissors" = true
    · rw [if_pos h38] at h
      exact absurd h (by decide)
    rw [if_neg h38] at h
    by_cases h39 : strContains q "translate" = true
    · rw [if_pos h39] at h
      exact absurd h (by decide)
    rw [if_neg h39] at h
    by_cases h40 : strContains q "what language is" = true
    · rw [if_pos h40] at h
      exact absurd h (by decide)
    rw [if_neg h40] at h
    by_cases h41 : (strContains q "speak this" || strContains q "say this") = true
    · rw [if_pos h41] at h
      exact absurd h (by decide)
    rw [if_neg h41] at h
    by_cases h42 : strContains q "time" = true
    · rw [if_pos h42] at h
      exact absurd h (by decide)
    rw [if_neg h42] at h
    by_cases h43 : strContains q "date" = true
    · rw [if_pos h43] at h
      exact absurd h (by decide)
    rw [if_neg h43] at h
    by_cases h44 : (strContains q "thank you" || strContains q "thanks") = true
    · rw [if_pos h44] at h
      exact absurd h (by decide)
    rw [if_neg h44] at h
    by_cases h45 : (strContains q "who are you" || strContains q "what can you do") = true
    · rw [if_pos h45] at h
      exact absurd h (by decide)
    rw [if_neg h45] at h
    exact absurd h (by decide)

end VA
